import Mathlib

/-!
Verification development for the bu-automation URL checking scripts.
The repository consists of three Python scripts:
`check_urls_status.py` (general checker), `url_checker.py` (Kayako
checker) and `retest_timeouts.py` (retest pass).  Below, each script is
shallowly embedded: pure string processing is translated directly, the
network and DNS are abstracted as explicit outcome values passed to the
classification functions, and the rate limiter is modelled as a
serialized trace of critical sections (the Python lock encloses the
whole read-compute-sleep-update body, so executions are a sequence of
atomic steps with monotone clock readings).
-/

/-- Containment of `pat` as a contiguous run of a character list, by
checking a prefix match at every suffix. -/
def listContains (pat : List Char) : List Char → Bool
  | [] => pat.isEmpty
  | l@(_ :: rest) => pat.isPrefixOf l || listContains pat rest

/-- Embedding of Python substring containment `pat in s`. -/
def containsSub (s pat : String) : Bool := listContains pat.toList s.toList

/-- Embedding of Python `s.strip()`: drop leading and trailing whitespace. -/
def pyStrip (s : String) : String :=
  String.mk (((s.toList.dropWhile Char.isWhitespace).reverse.dropWhile Char.isWhitespace).reverse)

/-- Embedding of Python `s.lower()`. -/
def pyLower (s : String) : String := String.mk (s.toList.map Char.toLower)

/-- Embedding of Python string slicing `s[:n]` (first `n` characters). -/
def pyTake (n : Nat) (s : String) : String := String.mk (s.toList.take n)

/-- Embedding of `s.split(\x27#\x27)[0]`: the prefix before the first hash. -/
def beforeHash (s : String) : String := String.mk (s.toList.takeWhile (fun c => c ≠ '#'))

/-- Embedding of `s.startswith((\x27http://\x27, \x27https://\x27))`. -/
def startsWithHttp (s : String) : Bool :=
  "http://".toList.isPrefixOf s.toList || "https://".toList.isPrefixOf s.toList

/-- The HTTP code slot of a record: Python stores either the integer
status code or a sentinel string in the same tuple position. -/
inductive CodeVal where
  | num (n : Nat)
  | str (s : String)
deriving DecidableEq, Repr

/-- Rendering of a `CodeVal` as the CSV writer renders it. -/
def CodeVal.render : CodeVal → String
  | .num n => toString n
  | .str s => s

/-- Outcome of one HTTP attempt, as seen at the `requests` call site:
either a response (status code and body text), or the raised exception.
The constructors are the disjoint exception classes that the scripts
dispatch on.  In the `requests` library, `SSLError` is a subclass of
`ConnectionError`, and both are subclasses of `RequestException`;
each embedded handler chain below dispatches an outcome to the first
`except` clause of the source that would catch it. -/
inductive HttpOutcome where
  | success (code : Nat) (body : String)
  | timeout
  | sslErr (msg : String)
  | connErr (msg : String)
  | tooManyRedirects
  | reqErr (msg : String)
  | otherErr (msg : String)
deriving DecidableEq, Repr

namespace CheckUrlsStatus

/-- Constant `REQUEST_DELAY = 0.3` seconds, from `check_urls_status.py`. -/
def REQUEST_DELAY : ℚ := 3 / 10

/-- Constant `TIMEOUT = 15` seconds, from `check_urls_status.py`. -/
def TIMEOUT : Nat := 15

/-- The fixed application error marker from `check_urls_status.py`. -/
def ERROR_MESSAGE_OOPS : String :=
  "Oops, something has gone wrong. Please try again later while we try and fix this."

/-- Result of `check_dns`: `(True, None)`, `(False, msg)` or `(None, msg)`. -/
inductive DnsOutcome where
  | works
  | fails (msg : String)
  | indeterminate (msg : String)
deriving DecidableEq, Repr

/-- One output record of `check_url` in `check_urls_status.py`:
`(url, status, http_code, error_message, error_type)`. -/
structure Record5 where
  url : String
  status : String
  httpCode : CodeVal
  errorMessage : String
  errorType : String
deriving DecidableEq, Repr

/-- The comment stripping of `check_url` (lines 72-74 of
`check_urls_status.py`), applied to the already stripped line. -/
def stripComment (original₁ : String) : String :=
  if containsSub original₁ "#" then pyStrip (beforeHash original₁) else original₁

/-- The normalization of `check_url` (lines 76-79 of
`check_urls_status.py`): prepend `https://` when no scheme is present. -/
def normalizeScheme (original : String) : String :=
  if startsWithHttp original then original else "https://" ++ original

/-- The response classification of `check_url` (lines 100-119 of
`check_urls_status.py`): body-marker checks first, then the numeric
ranges. -/
def classifySuccess (original : String) (code : Nat) (body : String) : Record5 :=
  let content := pyLower body
  if containsSub content (pyLower ERROR_MESSAGE_OOPS) then
    ⟨original, "Error Page", .num code, ERROR_MESSAGE_OOPS, "Application Error"⟩
  else if containsSub content "this site can\x27t be reached" ∨
      containsSub content "site can\x27t be reached" then
    ⟨original, "Site Unreachable", .num code, "Site can\x27t be reached", "Connection Error"⟩
  else if 200 ≤ code ∧ code < 400 then
    ⟨original, "Working", .num code, "", "Success"⟩
  else if 400 ≤ code then
    ⟨original, "HTTP " ++ toString code, .num code, "HTTP Error " ++ toString code, "HTTP Error"⟩
  else
    ⟨original, "Unknown Status", .num code, "Unexpected status code: " ++ toString code, "Unknown"⟩

/-- The `except requests.exceptions.ConnectionError` handler of
`check_url` (lines 125-132 of `check_urls_status.py`). -/
def classifyConnErr (original msg : String) : Record5 :=
  let m := pyLower msg
  if containsSub m "name or service not known" ∨ containsSub m "nodename nor servname" then
    ⟨original, "DNS Error", .str "DNS Error", "DNS_PROBE_FINISHED_NXDOMAIN", "DNS Error"⟩
  else if containsSub m "refused" then
    ⟨original, "Connection Refused", .str "Connection Error",
      "Connection refused - site not responding", "Connection Error"⟩
  else
    ⟨original, "Connection Error", .str "Connection Error",
      "Connection failed: " ++ pyTake 100 msg, "Connection Error"⟩

/-- The `try`/`except` body of `check_url` (lines 89-138 of
`check_urls_status.py`), as a function of the HTTP outcome: a response
goes through `classifySuccess`, a raised exception through the first
`except` clause that catches it. -/
def classifyResponse (original : String) : HttpOutcome → Record5
  | .success code body => classifySuccess original code body
  | .timeout =>
      ⟨original, "Timeout", .str "Timeout", "Request timeout - site did not respond", "Timeout"⟩
  | .sslErr msg =>
      ⟨original, "SSL Error", .str "SSL Error",
        "SSL Certificate error: " ++ pyTake 100 msg, "SSL Error"⟩
  | .connErr msg => classifyConnErr original msg
  | .tooManyRedirects =>
      ⟨original, "Redirect Error", .str "Redirect Error", "Too many redirects", "Redirect Error"⟩
  | .reqErr msg =>
      ⟨original, "Request Error", .str "Request Error", pyTake 150 msg, "Request Error"⟩
  | .otherErr msg =>
      ⟨original, "Unknown Error", .str "Unknown Error", pyTake 150 msg, "Unknown Error"⟩

/-- Embedding of `check_url` from `check_urls_status.py` (lines 61-138).
The second component instruments the side effects: it is
`some normalizedUrl` exactly when the function reaches
`wait_for_rate_limit()` (and hence the DNS check and possibly the HTTP
request, all issued against that normalized URL), and `none` on the
skip path, which returns before any rate-limit or network call. -/
def check_url (line : String) (dns : DnsOutcome) (http : HttpOutcome) :
    Record5 × Option String :=
  let original₁ := pyStrip line
  if original₁ = "" ∨ pyLower original₁ = "url" then
    (⟨original₁, "Skipped", .str "N/A", "Empty or header line", "N/A"⟩, none)
  else
    let original := stripComment original₁
    let normalized := normalizeScheme original
    match dns with
    | .fails msg =>
        (⟨original, "DNS Error", .str "N/A",
          (if msg = "" then "DNS_PROBE_FINISHED_NXDOMAIN" else msg), "DNS Error"⟩,
         some normalized)
    | _ => (classifyResponse original http, some normalized)

/-- Embedding of `read_urls_from_file` from `check_urls_status.py`
(lines 141-158): the loop appends each stripped line that is nonempty
and not the `url` header. -/
def read_urls_from_file (lines : List String) : List String :=
  lines.foldl
    (fun urls l =>
      let url := pyStrip l
      if url ≠ "" ∧ pyLower url ≠ "url" then urls ++ [url] else urls)
    []

/-- The record list assembled by `main` in `check_urls_status.py`:
one `check_url` result per entry of `read_urls_from_file`.  The thread
pool collects results in arbitrary completion order; this model fixes
input order, which is faithful for every count and membership claim.
The oracle gives each URL its DNS and HTTP outcome. -/
def runRecords (lines : List String) (oracle : String → DnsOutcome × HttpOutcome) :
    List Record5 :=
  (read_urls_from_file lines).map (fun u => (check_url u (oracle u).1 (oracle u).2).1)

end CheckUrlsStatus

namespace UrlChecker

/-- Constant `REQUEST_DELAY = 0.5` seconds, from `url_checker.py`. -/
def REQUEST_DELAY : ℚ := 1 / 2

/-- The Kayako unavailability marker from `url_checker.py`. -/
def KAYAKO_ERROR_MESSAGE : String :=
  "Either this Kayako instance does not exist or we are facing temporary problems. Please try again in a few minutes"

/-- One output record of `check_url` in `url_checker.py`:
`(url, status, http_code, error_message)` - no error-type field. -/
structure Record4 where
  url : String
  status : String
  httpCode : CodeVal
  errorMessage : String
deriving DecidableEq, Repr

/-- Embedding of `normalize_url` from `url_checker.py` (lines 44-58):
`none` models the Python `None` returned for blank lines and header
tokens; otherwise the line is returned with `https://` prepended when
no scheme is present.  Note: this function does not strip comments. -/
def normalize_url (line : String) : Option String :=
  let s := pyStrip line
  if s = "" then none
  else if pyLower s = "instance name" ∨ pyLower s = "url" ∨ pyLower s = "domain" then none
  else if startsWithHttp s then some s else some ("https://" ++ s)

/-- The `except requests.exceptions.ConnectionError` handler body of
`check_url` in `url_checker.py` (lines 104-111); in `requests`,
`SSLError` outcomes also land here because `SSLError` is a subclass of
`ConnectionError` and no earlier clause catches them. -/
def connectionHandler (original msg : String) : Record4 :=
  if containsSub msg "SSL" ∨ containsSub (pyLower msg) "certificate" then
    ⟨original, "Inactive", .str "SSL Error", "SSL/Certificate error"⟩
  else if containsSub msg "Name or service not known" ∨
      containsSub msg "nodename nor servname" then
    ⟨original, "Inactive", .str "DNS Error", "DNS resolution failed"⟩
  else
    ⟨original, "Inactive", .str "Connection Error", "Connection failed"⟩

/-- The response classification of `check_url` in `url_checker.py`
(lines 87-100): the Kayako marker is only looked for inside the
`200 <= http_code < 400` branch. -/
def classifySuccess (original : String) (code : Nat) (body : String) : Record4 :=
  if 200 ≤ code ∧ code < 400 then
    if containsSub (pyLower body) (pyLower KAYAKO_ERROR_MESSAGE) then
      ⟨original, "Instance unavailable", .num code, KAYAKO_ERROR_MESSAGE⟩
    else
      ⟨original, "Active Kayako", .num code, ""⟩
  else
    ⟨original, "Inactive", .num code, "HTTP " ++ toString code⟩

/-- The `try`/`except` body of `check_url` in `url_checker.py`
(lines 76-117) as a function of the HTTP outcome. -/
def classifyResponse (original : String) : HttpOutcome → Record4
  | .success code body => classifySuccess original code body
  | .timeout => ⟨original, "Inactive", .str "Timeout", "Request timeout"⟩
  | .sslErr msg => connectionHandler original msg
  | .connErr msg => connectionHandler original msg
  | .tooManyRedirects => ⟨original, "Inactive", .str "Redirect Error", "Too many redirects"⟩
  | .reqErr msg => ⟨original, "Inactive", .str "Request Error", pyTake 100 msg⟩
  | .otherErr msg => ⟨original, "Inactive", .str "Unknown Error", pyTake 100 msg⟩

/-- Embedding of `check_url` from `url_checker.py` (lines 61-117).
The second component is `some normalizedUrl` exactly when the function
reaches `wait_for_rate_limit()` and the HTTP request, and `none` on the
skip path.  The `url` field of the record is the argument exactly as
passed (the source assigns `original_url = url` before normalizing). -/
def check_url (url : String) (http : HttpOutcome) : Record4 × Option String :=
  let original := url
  match normalize_url url with
  | none => (⟨original, "Skipped", .str "N/A", "Empty or header line"⟩, none)
  | some normalized => (classifyResponse original http, some normalized)

/-- The header skip of `read_urls_from_file` in `url_checker.py`
(lines 126-129): start at index 1 when the first line is a recognized
header token. -/
def dropHeader (lines : List String) : List String :=
  match lines with
  | [] => []
  | l₀ :: rest =>
      if pyLower (pyStrip l₀) = "instance name" ∨ pyLower (pyStrip l₀) = "url" ∨
          pyLower (pyStrip l₀) = "domain" then rest
      else l₀ :: rest

/-- Embedding of `read_urls_from_file` from `url_checker.py`
(lines 120-141): drop a first-line header token, then append each
stripped nonempty line. -/
def read_urls_from_file (lines : List String) : List String :=
  (dropHeader lines).foldl
    (fun urls l =>
      let url := pyStrip l
      if url ≠ "" then urls ++ [url] else urls)
    []

/-- The CSV header written by `main` in `url_checker.py` (line 198). -/
def csvHeader : List String := ["URL", "Status", "HTTP Code", "Error Message"]

end UrlChecker

namespace RetestTimeouts

/-- Constant `TIMEOUT = 30` seconds, from `retest_timeouts.py`. -/
def TIMEOUT : Nat := 30

/-- Constant `INPUT_CSV`, from `retest_timeouts.py`. -/
def INPUT_CSV : String := "url_check_results.csv"

/-- Constant `OUTPUT_CSV`, from `retest_timeouts.py`. -/
def OUTPUT_CSV : String := "url_check_results_updated.csv"

/-- The `fieldnames` used by the `csv.DictWriter` in `main`
(line 184 of `retest_timeouts.py`). -/
def fieldnames : List String := ["URL", "Status", "HTTP Code", "Error Message"]

/-- Embedding of `normalize_url` from `retest_timeouts.py` (lines 19-29):
no header-token handling, only blank rejection and scheme prepending. -/
def normalize_url (line : String) : Option String :=
  let s := pyStrip line
  if s = "" then none
  else if startsWithHttp s then some s else some ("https://" ++ s)

/-- Outcome handling shared by the HEAD and GET attempts of
`check_url_with_retry` (lines 44-92 of `retest_timeouts.py`), for every
outcome other than a timeout (timeouts drive the HEAD-to-GET fallback
and are handled by the caller).  `SSLError` outcomes land in the
`ConnectionError` clause because in `requests` the former subclasses
the latter and the `ConnectionError` clause comes first, so the later
dedicated `except SSLError` clause is unreachable. -/
def handleOutcome (original : String) : HttpOutcome → UrlChecker.Record4
  | .success code _ =>
      if 200 ≤ code ∧ code < 400 then ⟨original, "Active", .num code, ""⟩
      else ⟨original, "Inactive", .num code, "HTTP " ++ toString code⟩
  | .timeout =>
      ⟨original, "Inactive", .str "Timeout",
        "Request timeout after " ++ toString TIMEOUT ++ "s"⟩
  | .sslErr msg => connectionHandler original msg
  | .connErr msg => connectionHandler original msg
  | .tooManyRedirects => ⟨original, "Inactive", .str "Redirect Error", "Too many redirects"⟩
  | .reqErr msg => ⟨original, "Inactive", .str "Request Error", pyTake 100 msg⟩
  | .otherErr msg => ⟨original, "Inactive", .str "Unknown Error", pyTake 100 msg⟩
where
  /-- The `except requests.exceptions.ConnectionError` handler body
  (lines 75-84 of `retest_timeouts.py`). -/
  connectionHandler (original msg : String) : UrlChecker.Record4 :=
    if containsSub msg "SSL" ∨ containsSub (pyLower msg) "certificate" then
      ⟨original, "Inactive", .str "SSL Error", "SSL/Certificate error"⟩
    else if containsSub msg "Name or service not known" ∨
        containsSub msg "nodename nor servname" then
      ⟨original, "Inactive", .str "DNS Error", "DNS resolution failed"⟩
    else if containsSub msg "Connection refused" ∨ containsSub (pyLower msg) "refused" then
      ⟨original, "Inactive", .str "Connection Refused", "Connection refused by server"⟩
    else
      ⟨original, "Inactive", .str "Connection Error", "Connection failed"⟩

/-- Embedding of `check_url_with_retry` from `retest_timeouts.py`
(lines 32-95).  `headO` and `getO` are the outcomes the network would
give to the HEAD and the GET attempt.  The loop body returns on every
outcome except a HEAD timeout, which `continue`s to the GET attempt;
a GET timeout falls through to the final timeout record.  The second
component records whether the GET attempt was made. -/
def check_url_with_retry (url : String) (headO getO : HttpOutcome) :
    UrlChecker.Record4 × Bool :=
  match normalize_url url with
  | none => (⟨url, "Inactive", .str "N/A", "Empty URL"⟩, false)
  | some _ =>
    match headO with
    | .timeout =>
        match getO with
        | .timeout =>
            (⟨url, "Inactive", .str "Timeout",
              "Request timeout after " ++ toString TIMEOUT ++ "s"⟩, true)
        | o => (handleOutcome url o, true)
    | o => (handleOutcome url o, false)

/-- One row of the input CSV as read by `csv.DictReader`. -/
structure CsvRow where
  url : String
  status : String
  httpCode : String
  errorMessage : String
deriving DecidableEq, Repr

/-- Embedding of `read_csv_and_find_timeouts` from `retest_timeouts.py`
(lines 98-116): one pass over the rows appending every row to
`all_rows` and the URL of every row whose `HTTP Code` field equals
`Timeout` to `timeout_urls`. -/
def read_csv_and_find_timeouts (rows : List CsvRow) : List String × List CsvRow :=
  rows.foldl
    (fun acc row =>
      (if row.httpCode = "Timeout" then acc.1 ++ [row.url] else acc.1,
       acc.2 ++ [row]))
    ([], [])

/-- The dictionary update `updated_results[result[0]] = result`
performed for each completed retest (line 153 of `retest_timeouts.py`):
later completions overwrite earlier ones under the same URL key. -/
def dictInsert (d : String → Option UrlChecker.Record4) (r : UrlChecker.Record4) :
    String → Option UrlChecker.Record4 :=
  fun k => if k = r.url then some r else d k

/-- The `updated_results` dictionary after processing the completed
retest results `rs` in completion order, starting from the empty dict
(lines 139-153 of `retest_timeouts.py`). -/
def buildDict (rs : List UrlChecker.Record4) : String → Option UrlChecker.Record4 :=
  rs.foldl dictInsert (fun _ => none)

/-- The per-row update of the merge loop (lines 172-178 of
`retest_timeouts.py`): when the dictionary holds a result for the
URL of the row, overwrite `Status`, `HTTP Code` and `Error Message`;
the `HTTP Code` cell receives the value as the CSV writer renders it. -/
def updateRow (d : String → Option UrlChecker.Record4) (row : CsvRow) : CsvRow :=
  match d row.url with
  | some r =>
      { row with
        status := r.status
        httpCode := r.httpCode.render
        errorMessage := r.errorMessage }
  | none => row

/-- The whole merge pass over `all_rows` (rows are visited in file
order and mutated independently, hence a map). -/
def updateRows (d : String → Option UrlChecker.Record4) (rows : List CsvRow) : List CsvRow :=
  rows.map (updateRow d)

end RetestTimeouts

namespace RateLimiter

/-- One execution of the `wait_for_rate_limit` critical section, as
observed through its two `time.time()` calls: `readTime` is the value
of `current_time` and `grantTime` the value written into
`last_request_time[0]` on exit (the grant timestamp). -/
structure AcquireObs where
  readTime : ℚ
  grantTime : ℚ
deriving DecidableEq, Repr

/-- The sleep performed inside the critical section of
`wait_for_rate_limit`: `REQUEST_DELAY - time_since_last` when
`time_since_last < REQUEST_DELAY`, else none. -/
def sleepTime (delay last r : ℚ) : ℚ :=
  if r - last < delay then delay - (r - last) else 0

/-- A valid serialized run of `wait_for_rate_limit` executions.  The
lock in the source encloses the whole read-compute-sleep-update body,
so under any number of workers and any timing, the executions form a
sequence of atomic critical sections; `last` is the stored
`last_request_time[0]` entering the next section.  The constraints are
exactly what a monotone real-time clock guarantees: the read happens
after the previous update was stored (`last ≤ readTime`), and the
second clock call happens after sleeping (`readTime + sleep ≤
grantTime`). -/
def validRun (delay : ℚ) : ℚ → List AcquireObs → Prop
  | _, [] => True
  | last, o :: rest =>
      last ≤ o.readTime ∧
      o.readTime + sleepTime delay last o.readTime ≤ o.grantTime ∧
      validRun delay o.grantTime rest

instance validRunDecidable (delay last : ℚ) (os : List AcquireObs) :
    Decidable (validRun delay last os) := by
  induction os generalizing last with
  | nil => exact isTrue trivial
  | cons o rest ih => exact @instDecidableAnd _ _ _ (@instDecidableAnd _ _ _ (ih o.grantTime))

/-- The sequence of grant timestamps of a run. -/
def grants (os : List AcquireObs) : List ℚ := os.map AcquireObs.grantTime

end RateLimiter

/-- The status taxonomy of the general checker: every record carries
one of the named statuses or an `HTTP <code>` status. -/
def statusTaxonomy (s : String) : Prop :=
  s ∈ ["Skipped", "DNS Error", "Error Page", "Site Unreachable", "Working",
    "Unknown Status", "Timeout", "SSL Error", "Connection Refused", "Connection Error",
    "Redirect Error", "Request Error", "Unknown Error"] ∨
  ∃ c : Nat, s = "HTTP " ++ toString c

/-! ## Theorems -/

/-- Any single critical section, entered with stored time `last`,
records a grant time at least `last + delay`: either it sleeps exactly
up to `last + delay`, or the delay had already elapsed at read time. -/
theorem grant_lower_bound (delay last r g : ℚ)
    (h : r + RateLimiter.sleepTime delay last r ≤ g) : last + delay ≤ g := by
  unfold RateLimiter.sleepTime at h
  by_cases hc : r - last < delay
  · rw [if_pos hc] at h
    linarith
  · rw [if_neg hc] at h
    push_neg at hc
    linarith

/-- The stored time links each grant to the next section. -/
theorem validRun_chain (delay : ℚ) :
    ∀ (os : List RateLimiter.AcquireObs) (last : ℚ),
      RateLimiter.validRun delay last os →
      List.Chain (fun a b => a + delay ≤ b) last (RateLimiter.grants os)
  | [], _, _ => List.Chain.nil
  | o :: rest, last, h =>
      List.Chain.cons (grant_lower_bound delay last o.readTime o.grantTime h.2.1)
        (validRun_chain delay rest o.grantTime h.2.2)

/-- C1: under any number of concurrent workers and any call timing, the
executions of `wait_for_rate_limit` serialize through the lock (the
whole read-compute-sleep-update body is one critical section), and in
every valid serialized run the grant timestamps are already sorted and
every pair of consecutive grants is at least `REQUEST_DELAY` apart. -/
theorem rate_limiter_grants_min_spacing (delay last : ℚ)
    (os : List RateLimiter.AcquireObs) (hd : 0 ≤ delay)
    (h : RateLimiter.validRun delay last os) :
    List.Chain' (fun a b => a + delay ≤ b) (RateLimiter.grants os) ∧
    List.Sorted (· ≤ ·) (RateLimiter.grants os) := by
  have hchain : List.Chain' (fun a b => a + delay ≤ b) (RateLimiter.grants os) :=
    List.Chain'.tail (l := last :: RateLimiter.grants os) (validRun_chain delay os last h)
  refine ⟨hchain, ?_⟩
  haveI : IsTrans ℚ (fun a b => a + delay ≤ b) :=
    ⟨fun a b c hab hbc => by
      have hab' : a + delay ≤ b := hab
      have hbc' : b + delay ≤ c := hbc
      show a + delay ≤ c
      linarith⟩
  have hp : List.Pairwise (fun a b => a + delay ≤ b) (RateLimiter.grants os) :=
    List.chain'_iff_pairwise.mp hchain
  exact hp.imp (fun {a b} hab => by
    have hab' : a + delay ≤ b := hab
    show a ≤ b
    linarith)

/-- Witness for C1 at a concrete two-worker run: the second section
reads the clock `0.1` seconds after a grant at `10.3` and must sleep up
to `10.6`, giving consecutive grants exactly `REQUEST_DELAY` apart. -/
theorem rate_limiter_grants_min_spacing_witness :
    (0:ℚ) ≤ CheckUrlsStatus.REQUEST_DELAY ∧
    RateLimiter.validRun CheckUrlsStatus.REQUEST_DELAY 0
      [⟨10, 103/10⟩, ⟨104/10, 106/10⟩] ∧
    (List.Chain' (fun a b => a + CheckUrlsStatus.REQUEST_DELAY ≤ b)
        (RateLimiter.grants [⟨10, 103/10⟩, ⟨104/10, 106/10⟩]) ∧
      List.Sorted (· ≤ ·) (RateLimiter.grants [⟨10, 103/10⟩, ⟨104/10, 106/10⟩])) :=
  have hd : (0:ℚ) ≤ CheckUrlsStatus.REQUEST_DELAY := by norm_num [CheckUrlsStatus.REQUEST_DELAY]
  have hv : RateLimiter.validRun CheckUrlsStatus.REQUEST_DELAY 0
      [⟨10, 103/10⟩, ⟨104/10, 106/10⟩] := by
    norm_num [RateLimiter.validRun, RateLimiter.sleepTime, CheckUrlsStatus.REQUEST_DELAY]
  ⟨hd, hv, rate_limiter_grants_min_spacing _ 0 _ hd hv⟩

/-- Slicing `s[:n]` gives at most `n` characters. -/
theorem pyTake_length_le (n : Nat) (s : String) : (pyTake n s).length ≤ n := by
  simp only [pyTake, String.length_mk]
  exact List.length_take_le n s.toList

/-- Every outcome classifies into the taxonomy. -/
theorem classifyResponse_taxonomy (original : String) (http : HttpOutcome) :
    statusTaxonomy (CheckUrlsStatus.classifyResponse original http).status := by
  cases http <;>
    simp only [CheckUrlsStatus.classifyResponse, CheckUrlsStatus.classifySuccess,
      CheckUrlsStatus.classifyConnErr] <;>
    (repeat' split) <;>
    first
    | exact Or.inr ⟨_, rfl⟩
    | simp [statusTaxonomy]

/-- Function `check_url` always returns a record in the taxonomy: totality of
the classification over every line, DNS result and HTTP outcome. -/
theorem check_url_taxonomy (line : String) (dns : CheckUrlsStatus.DnsOutcome)
    (http : HttpOutcome) :
    statusTaxonomy (CheckUrlsStatus.check_url line dns http).1.status := by
  unfold CheckUrlsStatus.check_url
  by_cases hskip : pyStrip line = "" ∨ pyLower (pyStrip line) = "url"
  · rw [if_pos hskip]; simp [statusTaxonomy]
  · rw [if_neg hskip]
    cases dns with
    | fails msg => simp [statusTaxonomy]
    | works => exact classifyResponse_taxonomy _ http
    | indeterminate msg => exact classifyResponse_taxonomy _ http

/-- The Kayako checker statuses collapse to four values. -/
theorem uc_check_url_statuses (url : String) (http : HttpOutcome) :
    (UrlChecker.check_url url http).1.status = "Skipped" ∨
    (UrlChecker.check_url url http).1.status = "Instance unavailable" ∨
    (UrlChecker.check_url url http).1.status = "Active Kayako" ∨
    (UrlChecker.check_url url http).1.status = "Inactive" := by
  unfold UrlChecker.check_url
  cases hn : UrlChecker.normalize_url url with
  | none => simp
  | some nu =>
      simp only
      cases http <;>
        simp only [UrlChecker.classifyResponse, UrlChecker.classifySuccess,
          UrlChecker.connectionHandler] <;>
        (repeat' split) <;> simp

/-- C2 counterexample: the claim requires every connection failure
whose message indicates refusal to be classified `Connection Refused`,
but `check_url` in `url_checker.py` has no such class: a refused
connection is recorded as `Inactive` / `Connection Error`. -/
theorem refused_connection_counterexample :
    containsSub (pyLower "Connection refused") "refused" = true ∧
    (UrlChecker.check_url "example.com" (.connErr "Connection refused")).1 =
      ⟨"example.com", "Inactive", .str "Connection Error", "Connection failed"⟩ ∧
    (UrlChecker.check_url "example.com" (.connErr "Connection refused")).1.status ≠
      "Connection Refused" ∧
    (UrlChecker.check_url "example.com" (.connErr "Connection refused")).1.httpCode ≠
      .str "Connection Refused" := by
  decide

/-- C2 (amended): in `check_urls_status.py` the exception precedence is
exactly as claimed - timeout, then TLS, then connection failures split
by message into DNS / refused / other, then redirects, then other
request exceptions, then any exception - with every exception-derived
message at most 150 characters, and every outcome yielding exactly one
record inside the status taxonomy.  In `url_checker.py` the statuses
collapse to `Skipped` / `Instance unavailable` / `Active Kayako` /
`Inactive` with the kind in the HTTP-code field; there is no
`Connection Refused` class (refusal-message failures are `Connection
Error`), and TLS failures are recognized by an `SSL`-or-`certificate`
message test inside the connection handler. -/
theorem exception_classification_amended (line original msg : String)
    (dns : CheckUrlsStatus.DnsOutcome) (http : HttpOutcome) :
    (CheckUrlsStatus.classifyResponse original .timeout).status = "Timeout" ∧
    (CheckUrlsStatus.classifyResponse original (.sslErr msg)).status = "SSL Error" ∧
    ((containsSub (pyLower msg) "name or service not known" = true ∨
        containsSub (pyLower msg) "nodename nor servname" = true) →
      (CheckUrlsStatus.classifyResponse original (.connErr msg)).status = "DNS Error") ∧
    (¬(containsSub (pyLower msg) "name or service not known" = true ∨
        containsSub (pyLower msg) "nodename nor servname" = true) →
      containsSub (pyLower msg) "refused" = true →
      (CheckUrlsStatus.classifyResponse original (.connErr msg)).status =
        "Connection Refused") ∧
    (¬(containsSub (pyLower msg) "name or service not known" = true ∨
        containsSub (pyLower msg) "nodename nor servname" = true) →
      containsSub (pyLower msg) "refused" = false →
      (CheckUrlsStatus.classifyResponse original (.connErr msg)).status =
        "Connection Error") ∧
    (CheckUrlsStatus.classifyResponse original .tooManyRedirects).status = "Redirect Error" ∧
    (CheckUrlsStatus.classifyResponse original (.reqErr msg)).status = "Request Error" ∧
    (CheckUrlsStatus.classifyResponse original (.otherErr msg)).status = "Unknown Error" ∧
    (∀ h : HttpOutcome, (∀ c b, h ≠ .success c b) →
      (CheckUrlsStatus.classifyResponse original h).errorMessage.length ≤ 150) ∧
    statusTaxonomy (CheckUrlsStatus.check_url line dns http).1.status ∧
    ((UrlChecker.check_url line http).1.status = "Skipped" ∨
      (UrlChecker.check_url line http).1.status = "Instance unavailable" ∨
      (UrlChecker.check_url line http).1.status = "Active Kayako" ∨
      (UrlChecker.check_url line http).1.status = "Inactive") ∧
    ((containsSub msg "SSL" = true ∨ containsSub (pyLower msg) "certificate" = true) →
      UrlChecker.connectionHandler original msg =
        ⟨original, "Inactive", .str "SSL Error", "SSL/Certificate error"⟩) ∧
    (¬(containsSub msg "SSL" = true ∨ containsSub (pyLower msg) "certificate" = true) →
      ¬(containsSub msg "Name or service not known" = true ∨
          containsSub msg "nodename nor servname" = true) →
      UrlChecker.connectionHandler original msg =
        ⟨original, "Inactive", .str "Connection Error", "Connection failed"⟩) ∧
    (∀ h : HttpOutcome, (∀ c b, h ≠ .success c b) →
      (UrlChecker.classifyResponse original h).errorMessage.length ≤ 150) := by
  refine ⟨rfl, rfl, ?_, ?_, ?_, rfl, rfl, rfl, ?_, check_url_taxonomy line dns http,
    uc_check_url_statuses line http, ?_, ?_, ?_⟩
  · intro hd
    simp only [CheckUrlsStatus.classifyResponse, CheckUrlsStatus.classifyConnErr]
    rw [if_pos hd]
  · intro hd hr
    simp only [CheckUrlsStatus.classifyResponse, CheckUrlsStatus.classifyConnErr]
    rw [if_neg hd, if_pos hr]
  · intro hd hr
    simp only [CheckUrlsStatus.classifyResponse, CheckUrlsStatus.classifyConnErr]
    rw [if_neg hd, if_neg (by simp [hr])]
  · intro h hns
    cases h with
    | success c b => exact absurd rfl (hns c b)
    | timeout => dsimp only [CheckUrlsStatus.classifyResponse]; decide
    | sslErr m =>
        dsimp only [CheckUrlsStatus.classifyResponse]
        rw [String.length_append]
        have h2 : (pyTake 100 m).length ≤ 100 := pyTake_length_le 100 m
        have h1 : ("SSL Certificate error: " : String).length = 23 := by decide
        omega
    | connErr m =>
        dsimp only [CheckUrlsStatus.classifyResponse, CheckUrlsStatus.classifyConnErr]
        (repeat' split)
        · dsimp only; decide
        · dsimp only; decide
        · rw [String.length_append]
          have h2 : (pyTake 100 m).length ≤ 100 := pyTake_length_le 100 m
          have h1 : ("Connection failed: " : String).length = 19 := by decide
          omega
    | tooManyRedirects => dsimp only [CheckUrlsStatus.classifyResponse]; decide
    | reqErr m => exact pyTake_length_le 150 m
    | otherErr m => exact pyTake_length_le 150 m
  · intro hs
    simp only [UrlChecker.connectionHandler]
    rw [if_pos hs]
  · intro hs hd
    simp only [UrlChecker.connectionHandler]
    rw [if_neg hs, if_neg hd]
  · intro h hns
    cases h with
    | success c b => exact absurd rfl (hns c b)
    | timeout => dsimp only [UrlChecker.classifyResponse]; decide
    | sslErr m =>
        dsimp only [UrlChecker.classifyResponse, UrlChecker.connectionHandler]
        (repeat' split) <;> (dsimp only; decide)
    | connErr m =>
        dsimp only [UrlChecker.classifyResponse, UrlChecker.connectionHandler]
        (repeat' split) <;> (dsimp only; decide)
    | tooManyRedirects => dsimp only [UrlChecker.classifyResponse]; decide
    | reqErr m => exact le_trans (pyTake_length_le 100 m) (by omega)
    | otherErr m => exact le_trans (pyTake_length_le 100 m) (by omega)

/-- Witness for C2 (amended) at a refused connection message. -/
theorem exception_classification_amended_witness :
    (CheckUrlsStatus.classifyResponse "example.com"
      (.connErr "Connection refused")).status = "Connection Refused" :=
  (exception_classification_amended "example.com" "example.com" "Connection refused"
    .works .timeout).2.2.2.1 (by decide) (by decide)

/-- C3 counterexample: a 500 response whose body contains the Kayako
marker is classified `Inactive` / `HTTP 500` by `check_url` in
`url_checker.py`, not `Instance unavailable` - the marker is only
consulted inside the `200 <= code < 400` branch, so the claimed
status-independence fails for the Kayako marker. -/
theorem kayako_marker_status_counterexample :
    containsSub (pyLower UrlChecker.KAYAKO_ERROR_MESSAGE)
      (pyLower UrlChecker.KAYAKO_ERROR_MESSAGE) = true ∧
    (UrlChecker.check_url "example.com"
      (.success 500 UrlChecker.KAYAKO_ERROR_MESSAGE)).1 =
      ⟨"example.com", "Inactive", .num 500, "HTTP 500"⟩ ∧
    (UrlChecker.check_url "example.com"
      (.success 500 UrlChecker.KAYAKO_ERROR_MESSAGE)).1.status ≠ "Instance unavailable" := by
  decide

/-- C3 (amended): in `check_urls_status.py` the body markers dominate
the numeric status for every code - an `Oops` marker yields `Error
Page` with the marker as message, and otherwise a site-unreachable
phrase yields `Site Unreachable` with the matched phrase - and this
lifts to `check_url` on any non-skipped line whose DNS check did not
fail.  In `url_checker.py` the Kayako marker yields `Instance
unavailable` only for `200 <= code < 400` responses; any other code is
`Inactive` regardless of the body. -/
theorem error_page_marker_amended (line original body : String) (code : Nat)
    (dns : CheckUrlsStatus.DnsOutcome) :
    (containsSub (pyLower body) (pyLower CheckUrlsStatus.ERROR_MESSAGE_OOPS) = true →
      CheckUrlsStatus.classifySuccess original code body =
        ⟨original, "Error Page", .num code, CheckUrlsStatus.ERROR_MESSAGE_OOPS,
          "Application Error"⟩) ∧
    (containsSub (pyLower body) (pyLower CheckUrlsStatus.ERROR_MESSAGE_OOPS) = false →
      (containsSub (pyLower body) "this site can\x27t be reached" = true ∨
        containsSub (pyLower body) "site can\x27t be reached" = true) →
      CheckUrlsStatus.classifySuccess original code body =
        ⟨original, "Site Unreachable", .num code, "Site can\x27t be reached",
          "Connection Error"⟩) ∧
    (¬(pyStrip line = "" ∨ pyLower (pyStrip line) = "url") →
      (∀ m, dns ≠ .fails m) →
      containsSub (pyLower body) (pyLower CheckUrlsStatus.ERROR_MESSAGE_OOPS) = true →
      (CheckUrlsStatus.check_url line dns (.success code body)).1.status = "Error Page") ∧
    ((200 ≤ code ∧ code < 400) →
      containsSub (pyLower body) (pyLower UrlChecker.KAYAKO_ERROR_MESSAGE) = true →
      UrlChecker.classifySuccess original code body =
        ⟨original, "Instance unavailable", .num code, UrlChecker.KAYAKO_ERROR_MESSAGE⟩) ∧
    (¬(200 ≤ code ∧ code < 400) →
      UrlChecker.classifySuccess original code body =
        ⟨original, "Inactive", .num code, "HTTP " ++ toString code⟩) := by
  refine ⟨?_, ?_, ?_, ?_, ?_⟩
  · intro h
    simp only [CheckUrlsStatus.classifySuccess]
    rw [if_pos h]
  · intro h hsite
    simp only [CheckUrlsStatus.classifySuccess]
    rw [if_neg (by simp [h]), if_pos hsite]
  · intro hskip hdns h
    unfold CheckUrlsStatus.check_url
    rw [if_neg hskip]
    cases dns with
    | fails m => exact absurd rfl (hdns m)
    | works =>
        simp only [CheckUrlsStatus.classifyResponse, CheckUrlsStatus.classifySuccess]
        rw [if_pos h]
    | indeterminate m =>
        simp only [CheckUrlsStatus.classifyResponse, CheckUrlsStatus.classifySuccess]
        rw [if_pos h]
  · intro hc h
    simp only [UrlChecker.classifySuccess]
    rw [if_pos hc, if_pos h]
  · intro hc
    simp only [UrlChecker.classifySuccess]
    rw [if_neg hc]

/-- Witness for C3 (amended): a 200 response whose body is exactly the
`Oops` marker classifies as `Error Page`. -/
theorem error_page_marker_amended_witness :
    CheckUrlsStatus.classifySuccess "example.com" 200 CheckUrlsStatus.ERROR_MESSAGE_OOPS =
      ⟨"example.com", "Error Page", .num 200, CheckUrlsStatus.ERROR_MESSAGE_OOPS,
        "Application Error"⟩ :=
  (error_page_marker_amended "example.com" "example.com"
    CheckUrlsStatus.ERROR_MESSAGE_OOPS 200 .works).1 (by decide)

/-- A fold that appends the stripped line when it satisfies `p` builds
the filter-map of the line list onto the accumulator. -/
theorem foldl_filter_aux (p : String → Prop) [DecidablePred p] :
    ∀ (lines acc : List String),
      (lines.foldl (fun urls l => if p (pyStrip l) then urls ++ [pyStrip l] else urls) acc) =
        acc ++ lines.filterMap (fun l => if p (pyStrip l) then some (pyStrip l) else none)
  | [], acc => by simp
  | l :: rest, acc => by
      simp only [List.foldl_cons, List.filterMap_cons]
      by_cases h : p (pyStrip l)
      · rw [if_pos h, if_pos h, foldl_filter_aux p rest (acc ++ [pyStrip l])]
        simp
      · rw [if_neg h, if_neg h, foldl_filter_aux p rest acc]

/-- The length of such a filter-map is the count of kept lines. -/
theorem length_filterMap_ite (p : String → Prop) [DecidablePred p] (g : String → String) :
    ∀ lines : List String,
      (lines.filterMap (fun l => if p l then some (g l) else none)).length =
        lines.countP (fun l => decide (p l))
  | [] => rfl
  | l :: rest => by
      simp only [List.filterMap_cons, List.countP_cons]
      by_cases h : p l
      · simp [h, length_filterMap_ite p g rest]
      · simp [h, length_filterMap_ite p g rest]

/-- C4 counterexample: an input of three lines - the header, a blank
line, and one URL - yields a single output record, not three: header
and blank lines are filtered out by `read_urls_from_file`, so the
claimed input-line / output-row bijection fails. -/
theorem line_record_count_counterexample :
    (CheckUrlsStatus.runRecords ["URL", "", "example.com"]
        (fun _ => (.works, .success 200 "hello"))).length = 1 ∧
    (["URL", "", "example.com"] : List String).length = 3 ∧
    (UrlChecker.read_urls_from_file ["URL", "", "example.com"]).length = 1 := by
  refine ⟨?_, rfl, ?_⟩ <;> decide

/-- C4 (amended): the run produces exactly one record per surviving
input line, where the general checker keeps exactly the stripped
nonempty lines that are not the `url` header (anywhere in the file),
and the Kayako checker drops a recognized first-line header token and
every blank line; dropped lines produce no record at all, so the
output row count equals the surviving-line count rather than the input
line count. -/
theorem line_record_count_amended (lines : List String)
    (oracle : String → CheckUrlsStatus.DnsOutcome × HttpOutcome) :
    CheckUrlsStatus.read_urls_from_file lines =
      lines.filterMap (fun l =>
        if pyStrip l ≠ "" ∧ pyLower (pyStrip l) ≠ "url" then some (pyStrip l) else none) ∧
    (CheckUrlsStatus.runRecords lines oracle).length =
      lines.countP (fun l => decide (pyStrip l ≠ "" ∧ pyLower (pyStrip l) ≠ "url")) ∧
    UrlChecker.read_urls_from_file lines =
      (UrlChecker.dropHeader lines).filterMap (fun l =>
        if pyStrip l ≠ "" then some (pyStrip l) else none) ∧
    (UrlChecker.read_urls_from_file lines).length =
      (UrlChecker.dropHeader lines).countP (fun l => decide (pyStrip l ≠ "")) := by
  have h₁ : CheckUrlsStatus.read_urls_from_file lines =
      lines.filterMap (fun l =>
        if pyStrip l ≠ "" ∧ pyLower (pyStrip l) ≠ "url" then some (pyStrip l) else none) := by
    unfold CheckUrlsStatus.read_urls_from_file
    simpa using foldl_filter_aux (fun u => u ≠ "" ∧ pyLower u ≠ "url") lines []
  have h₃ : UrlChecker.read_urls_from_file lines =
      (UrlChecker.dropHeader lines).filterMap (fun l =>
        if pyStrip l ≠ "" then some (pyStrip l) else none) := by
    unfold UrlChecker.read_urls_from_file
    simpa using foldl_filter_aux (fun u => u ≠ "") (UrlChecker.dropHeader lines) []
  refine ⟨h₁, ?_, h₃, ?_⟩
  · rw [CheckUrlsStatus.runRecords, List.length_map, h₁]
    exact length_filterMap_ite _ _ lines
  · rw [h₃]
    exact length_filterMap_ite _ _ (UrlChecker.dropHeader lines)

/-- C5 counterexample: the line `url # comment` is empty-or-header
after trimming and comment stripping (it reduces to the recognized
header token `url`), yet `check_url` in `check_urls_status.py` does not
skip it - the skip test runs before comment stripping - and instead
acquires the rate limiter and probes `https://url`; `url_checker.py`
likewise probes it (it never strips comments). -/
theorem skip_rule_counterexample :
    CheckUrlsStatus.stripComment (pyStrip "url # comment") = "url" ∧
    (CheckUrlsStatus.check_url "url # comment" .works (.success 200 "hello")).1.status ≠
      "Skipped" ∧
    (CheckUrlsStatus.check_url "url # comment" .works (.success 200 "hello")).2 =
      some "https://url" ∧
    (UrlChecker.check_url "url # comment" (.success 200 "hello")).1.status ≠ "Skipped" ∧
    (UrlChecker.check_url "url # comment" (.success 200 "hello")).2.isSome = true := by
  decide

/-- C5 (amended): the skip test applies to the trimmed line before any
comment stripping, and the recognized header tokens are `url` alone in
`check_urls_status.py` and `instance name` / `url` / `domain` in
`url_checker.py`.  For a line whose trimmed text is empty or such a
token, the record is `Skipped` with `N/A` code (and `N/A` error type
in the general checker; the Kayako record has no error-type field),
and the instrumented side-effect slot is `none`: no rate-limiter
acquisition and no network I/O happen for that line. -/
theorem skip_rule_amended (line : String) (dns : CheckUrlsStatus.DnsOutcome)
    (http httpU : HttpOutcome) :
    ((pyStrip line = "" ∨ pyLower (pyStrip line) = "url") →
      CheckUrlsStatus.check_url line dns http =
        (⟨pyStrip line, "Skipped", .str "N/A", "Empty or header line", "N/A"⟩, none)) ∧
    ((pyStrip line = "" ∨ pyLower (pyStrip line) = "instance name" ∨
        pyLower (pyStrip line) = "url" ∨ pyLower (pyStrip line) = "domain") →
      UrlChecker.check_url line httpU =
        (⟨line, "Skipped", .str "N/A", "Empty or header line"⟩, none)) := by
  constructor
  · intro h
    unfold CheckUrlsStatus.check_url
    rw [if_pos h]
  · intro h
    have hn : UrlChecker.normalize_url line = none := by
      unfold UrlChecker.normalize_url
      by_cases he : pyStrip line = ""
      · rw [if_pos he]
      · rw [if_neg he, if_pos (show pyLower (pyStrip line) = "instance name" ∨
          pyLower (pyStrip line) = "url" ∨ pyLower (pyStrip line) = "domain" by tauto)]
    unfold UrlChecker.check_url
    rw [hn]

/-- Witness for C5 (amended): the bare header line `URL`. -/
theorem skip_rule_amended_witness :
    CheckUrlsStatus.check_url "URL" .works (.success 200 "hello") =
      (⟨"URL", "Skipped", .str "N/A", "Empty or header line", "N/A"⟩, none) ∧
    UrlChecker.check_url "URL" (.success 200 "hello") =
      (⟨"URL", "Skipped", .str "N/A", "Empty or header line"⟩, none) :=
  ⟨(skip_rule_amended "URL" .works (.success 200 "hello") (.success 200 "hello")).1
      (by decide),
   (skip_rule_amended "URL" .works (.success 200 "hello") (.success 200 "hello")).2
      (by decide)⟩

/-- C6: the merge pass leaves row count and order intact, rewrites the
three result fields of exactly the rows whose URL has a retest result,
keeps all other rows untouched, writes the same header the fresh
report wrote, and writes to a different file than it read. -/
theorem retest_merge_update (d : String → Option UrlChecker.Record4)
    (rows : List RetestTimeouts.CsvRow) (row : RetestTimeouts.CsvRow)
    (v : UrlChecker.Record4) (i : Nat) :
    (RetestTimeouts.updateRows d rows).length = rows.length ∧
    (RetestTimeouts.updateRows d rows)[i]? =
      (rows[i]?).map (RetestTimeouts.updateRow d) ∧
    (d row.url = none → RetestTimeouts.updateRow d row = row) ∧
    (d row.url = some v → RetestTimeouts.updateRow d row =
      ⟨row.url, v.status, v.httpCode.render, v.errorMessage⟩) ∧
    RetestTimeouts.fieldnames = UrlChecker.csvHeader ∧
    RetestTimeouts.OUTPUT_CSV ≠ RetestTimeouts.INPUT_CSV := by
  refine ⟨List.length_map _ _, List.getElem?_map _ rows i, ?_, ?_, rfl, by decide⟩
  · intro h
    unfold RetestTimeouts.updateRow
    rw [h]
  · intro h
    unfold RetestTimeouts.updateRow
    rw [h]

/-- Witness for C6 at a two-row CSV where only the first row has a
retest result. -/
theorem retest_merge_update_witness :
    RetestTimeouts.updateRow
        (fun k => if k = "a.com" then some ⟨"a.com", "Active", .num 200, ""⟩ else none)
        ⟨"b.com", "Error", "Timeout", "Request timeout"⟩ =
      ⟨"b.com", "Error", "Timeout", "Request timeout"⟩ ∧
    RetestTimeouts.updateRow
        (fun k => if k = "a.com" then some ⟨"a.com", "Active", .num 200, ""⟩ else none)
        ⟨"a.com", "Error", "Timeout", "Request timeout"⟩ =
      ⟨"a.com", "Active", "200", ""⟩ :=
  ⟨(retest_merge_update
      (fun k => if k = "a.com" then some ⟨"a.com", "Active", .num 200, ""⟩ else none)
      [] ⟨"b.com", "Error", "Timeout", "Request timeout"⟩
      ⟨"a.com", "Active", .num 200, ""⟩ 0).2.2.1 (by decide),
   (retest_merge_update
      (fun k => if k = "a.com" then some ⟨"a.com", "Active", .num 200, ""⟩ else none)
      [] ⟨"a.com", "Error", "Timeout", "Request timeout"⟩
      ⟨"a.com", "Active", .num 200, ""⟩ 0).2.2.2.1 (by decide)⟩

/-- The CSV scan accumulates exactly the Timeout-coded URLs and keeps
every row, in order. -/
theorem read_csv_foldl_aux :
    ∀ (rows : List RetestTimeouts.CsvRow) (acc : List String × List RetestTimeouts.CsvRow),
      rows.foldl
          (fun acc row =>
            (if row.httpCode = "Timeout" then acc.1 ++ [row.url] else acc.1,
             acc.2 ++ [row])) acc =
        (acc.1 ++ (rows.filter (fun row => row.httpCode == "Timeout")).map
          RetestTimeouts.CsvRow.url, acc.2 ++ rows)
  | [], acc => by simp
  | row :: rest, acc => by
      simp only [List.foldl_cons, List.filter_cons]
      by_cases h : row.httpCode = "Timeout"
      · rw [if_pos h]
        have hb : (row.httpCode == "Timeout") = true := by simpa using h
        rw [hb]
        rw [read_csv_foldl_aux rest _]
        simp
      · rw [if_neg h]
        have hb : (row.httpCode == "Timeout") = false := by simpa using h
        rw [hb]
        rw [read_csv_foldl_aux rest _]
        simp

/-- C7: the retest pass selects exactly the rows whose `HTTP Code`
column equals `Timeout` (keeping all rows for the merge), uses the
longer 30-second timeout, and attempts HEAD first, falling back to GET
exactly when the HEAD attempt times out: any non-timeout HEAD outcome
returns immediately with no GET attempt, and a double timeout reports
`Request timeout after 30s`. -/
theorem retest_selection_and_fallback (rows : List RetestTimeouts.CsvRow)
    (url : String) (headO getO : HttpOutcome) :
    (RetestTimeouts.read_csv_and_find_timeouts rows).1 =
      (rows.filter (fun row => row.httpCode == "Timeout")).map RetestTimeouts.CsvRow.url ∧
    (RetestTimeouts.read_csv_and_find_timeouts rows).2 = rows ∧
    RetestTimeouts.TIMEOUT = 30 ∧
    ((RetestTimeouts.check_url_with_retry url headO getO).2 = true ↔
      (RetestTimeouts.normalize_url url ≠ none ∧ headO = .timeout)) ∧
    (headO ≠ .timeout → RetestTimeouts.normalize_url url ≠ none →
      RetestTimeouts.check_url_with_retry url headO getO =
        (RetestTimeouts.handleOutcome url headO, false)) ∧
    (RetestTimeouts.normalize_url url ≠ none →
      RetestTimeouts.check_url_with_retry url .timeout .timeout =
        (⟨url, "Inactive", .str "Timeout",
          "Request timeout after " ++ toString RetestTimeouts.TIMEOUT ++ "s"⟩, true)) := by
  have hscan := read_csv_foldl_aux rows ([], [])
  refine ⟨?_, ?_, rfl, ?_, ?_, ?_⟩
  · unfold RetestTimeouts.read_csv_and_find_timeouts
    rw [hscan]
    simp
  · unfold RetestTimeouts.read_csv_and_find_timeouts
    rw [hscan]
    simp
  · cases hn : RetestTimeouts.normalize_url url with
    | none => cases headO <;> simp [RetestTimeouts.check_url_with_retry, hn]
    | some nu => cases headO <;> cases getO <;>
        simp [RetestTimeouts.check_url_with_retry, hn]
  · intro hho hn
    cases hn' : RetestTimeouts.normalize_url url with
    | none => exact absurd hn' hn
    | some nu =>
        cases headO with
        | timeout => exact absurd rfl hho
        | success c b => simp [RetestTimeouts.check_url_with_retry, hn']
        | sslErr m => simp [RetestTimeouts.check_url_with_retry, hn']
        | connErr m => simp [RetestTimeouts.check_url_with_retry, hn']
        | tooManyRedirects => simp [RetestTimeouts.check_url_with_retry, hn']
        | reqErr m => simp [RetestTimeouts.check_url_with_retry, hn']
        | otherErr m => simp [RetestTimeouts.check_url_with_retry, hn']
  · intro hn
    cases hn' : RetestTimeouts.normalize_url url with
    | none => exact absurd hn' hn
    | some nu => simp [RetestTimeouts.check_url_with_retry, hn']

/-- Witness for C7: a concrete one-row CSV and a HEAD timeout followed
by a GET success. -/
theorem retest_selection_and_fallback_witness :
    (RetestTimeouts.read_csv_and_find_timeouts
        [⟨"a.com", "Error", "Timeout", "m"⟩, ⟨"b.com", "Working", "200", ""⟩]).1 =
      ["a.com"] ∧
    (RetestTimeouts.check_url_with_retry "example.com" .timeout (.success 200 "")).2 = true :=
  ⟨by
    rw [(retest_selection_and_fallback
      [⟨"a.com", "Error", "Timeout", "m"⟩, ⟨"b.com", "Working", "200", ""⟩]
      "example.com" .timeout (.success 200 "")).1]
    decide,
   (retest_selection_and_fallback
      [⟨"a.com", "Error", "Timeout", "m"⟩, ⟨"b.com", "Working", "200", ""⟩]
      "example.com" .timeout (.success 200 "")).2.2.2.1.mpr (by decide)⟩

/-- Every classified record of the general checker keeps the probed
line text in its URL field. -/
theorem cus_classifyResponse_url (original : String) (h : HttpOutcome) :
    (CheckUrlsStatus.classifyResponse original h).url = original := by
  cases h <;>
    dsimp only [CheckUrlsStatus.classifyResponse, CheckUrlsStatus.classifySuccess,
      CheckUrlsStatus.classifyConnErr] <;>
    (repeat' split) <;> rfl

/-- Every classified record of the Kayako checker keeps the argument
in its URL field. -/
theorem uc_classifyResponse_url (original : String) (h : HttpOutcome) :
    (UrlChecker.classifyResponse original h).url = original := by
  cases h <;>
    dsimp only [UrlChecker.classifyResponse, UrlChecker.classifySuccess,
      UrlChecker.connectionHandler] <;>
    (repeat' split) <;> rfl

/-- On every non-skipped line the general checker probes exactly the
scheme-normalized comment-stripped line. -/
theorem cus_check_url_probed (line : String) (dns : CheckUrlsStatus.DnsOutcome)
    (http : HttpOutcome)
    (hskip : ¬(pyStrip line = "" ∨ pyLower (pyStrip line) = "url")) :
    (CheckUrlsStatus.check_url line dns http).2 =
      some (CheckUrlsStatus.normalizeScheme (CheckUrlsStatus.stripComment (pyStrip line))) := by
  unfold CheckUrlsStatus.check_url
  rw [if_neg hskip]
  cases dns <;> rfl

/-- C8 counterexample: `url_checker.py` never strips `#`-comments, so
the line `example.com # comment` is probed as
`https://example.com # comment`, not as `https://example.com`. -/
theorem comment_normalization_counterexample :
    UrlChecker.normalize_url "example.com # comment" =
      some "https://example.com # comment" ∧
    ("https://example.com # comment" : String) ≠ "https://example.com" ∧
    (UrlChecker.check_url "example.com # comment" (.success 200 "hello")).2 =
      some "https://example.com # comment" := by
  decide

/-- C8 (amended): `https://` is prepended whenever a probed line does
not start with `http://` or `https://`, in both checkers; but trailing
`#`-comments are stripped before normalization only in
`check_urls_status.py`, where `example.com # comment` is probed as
`https://example.com`; in `url_checker.py` the whole line, comment
included, is normalized. -/
theorem comment_normalization_amended (line : String) (dns : CheckUrlsStatus.DnsOutcome)
    (http : HttpOutcome) :
    (¬(pyStrip line = "" ∨ pyLower (pyStrip line) = "url") →
      (CheckUrlsStatus.check_url line dns http).2 =
        some (CheckUrlsStatus.normalizeScheme
          (CheckUrlsStatus.stripComment (pyStrip line)))) ∧
    (∀ s, startsWithHttp s = false →
      CheckUrlsStatus.normalizeScheme s = "https://" ++ s) ∧
    (∀ s, startsWithHttp s = true → CheckUrlsStatus.normalizeScheme s = s) ∧
    CheckUrlsStatus.stripComment (pyStrip "example.com # comment") = "example.com" ∧
    (CheckUrlsStatus.check_url "example.com # comment" dns http).2 =
      some "https://example.com" ∧
    (pyStrip line ≠ "" →
      ¬(pyLower (pyStrip line) = "instance name" ∨ pyLower (pyStrip line) = "url" ∨
        pyLower (pyStrip line) = "domain") →
      startsWithHttp (pyStrip line) = false →
      UrlChecker.normalize_url line = some ("https://" ++ pyStrip line)) := by
  refine ⟨cus_check_url_probed line dns http, ?_, ?_, by decide, ?_, ?_⟩
  · intro s hs
    unfold CheckUrlsStatus.normalizeScheme
    rw [if_neg (by simp [hs])]
  · intro s hs
    unfold CheckUrlsStatus.normalizeScheme
    rw [if_pos hs]
  · rw [cus_check_url_probed "example.com # comment" dns http (by decide)]
    decide
  · intro he hh hs
    unfold UrlChecker.normalize_url
    rw [if_neg he, if_neg hh, if_neg (by simp [hs])]

/-- Witness for C8 (amended): the concrete commented line. -/
theorem comment_normalization_amended_witness :
    (CheckUrlsStatus.check_url "example.com # comment" .works .timeout).2 =
      some "https://example.com" ∧
    UrlChecker.normalize_url "bare.example.org" = some "https://bare.example.org" :=
  ⟨(comment_normalization_amended "bare.example.org" .works .timeout).2.2.2.2.1,
   (comment_normalization_amended "bare.example.org" .works .timeout).2.2.2.2.2
     (by decide) (by decide) (by decide)⟩

/-- C9 counterexample: the Kayako checker writes the line exactly as
read into the URL column - for `example.com # c` the record is keyed by
`example.com # c`, not by the comment-stripped `example.com`, so the
claimed trimmed-and-comment-stripped keying fails there. -/
theorem output_url_field_counterexample :
    (UrlChecker.check_url "example.com # c" (.success 200 "hello")).1.status ≠ "Skipped" ∧
    (UrlChecker.check_url "example.com # c" (.success 200 "hello")).1.url =
      "example.com # c" ∧
    ("example.com # c" : String) ≠ "example.com" := by
  decide

/-- C9 (amended): the URL field written to the CSV is never the
normalized URL: in `check_urls_status.py` it is the trimmed,
comment-stripped line, and when that text has no scheme the probe goes
to `https://` prepended onto the very text stored in the record, so a
bare-hostname row stays keyed by the bare hostname; in `url_checker.py`
the field is the line exactly as passed (comments included). -/
theorem output_url_field_amended (line : String) (dns : CheckUrlsStatus.DnsOutcome)
    (http : HttpOutcome) :
    (¬(pyStrip line = "" ∨ pyLower (pyStrip line) = "url") →
      (CheckUrlsStatus.check_url line dns http).1.url =
        CheckUrlsStatus.stripComment (pyStrip line)) ∧
    (¬(pyStrip line = "" ∨ pyLower (pyStrip line) = "url") →
      startsWithHttp (CheckUrlsStatus.stripComment (pyStrip line)) = false →
      (CheckUrlsStatus.check_url line dns http).2 =
        some ("https://" ++ (CheckUrlsStatus.check_url line dns http).1.url)) ∧
    (UrlChecker.check_url line http).1.url = line := by
  have hfield : ¬(pyStrip line = "" ∨ pyLower (pyStrip line) = "url") →
      (CheckUrlsStatus.check_url line dns http).1.url =
        CheckUrlsStatus.stripComment (pyStrip line) := by
    intro hskip
    unfold CheckUrlsStatus.check_url
    rw [if_neg hskip]
    cases dns with
    | fails m => rfl
    | works => exact cus_classifyResponse_url _ http
    | indeterminate m => exact cus_classifyResponse_url _ http
  refine ⟨hfield, ?_, ?_⟩
  · intro hskip hs
    rw [cus_check_url_probed line dns http hskip, hfield hskip]
    unfold CheckUrlsStatus.normalizeScheme
    rw [if_neg (by simp [hs])]
  · unfold UrlChecker.check_url
    cases hn : UrlChecker.normalize_url line with
    | none => rfl
    | some nu => exact uc_classifyResponse_url line http

/-- Witness for C9 (amended): a bare hostname stays the record key
while the probe carries the scheme. -/
theorem output_url_field_amended_witness :
    (CheckUrlsStatus.check_url "example.com" .works .timeout).1.url =
      CheckUrlsStatus.stripComment (pyStrip "example.com") ∧
    (CheckUrlsStatus.check_url "example.com" .works .timeout).2 =
      some ("https://" ++ (CheckUrlsStatus.check_url "example.com" .works .timeout).1.url) :=
  ⟨(output_url_field_amended "example.com" .works .timeout).1 (by decide),
   (output_url_field_amended "example.com" .works .timeout).2.1 (by decide) (by decide)⟩

/-- The `updated_results` dictionary holds, for each URL, exactly the
last completed retest result bearing that URL. -/
theorem buildDict_eq_getLast (u : String) (rs : List UrlChecker.Record4) :
    RetestTimeouts.buildDict rs u = (rs.filter (fun r => r.url == u)).getLast? := by
  induction rs using List.reverseRecOn with
  | nil => rfl
  | append_singleton rs' r ih =>
      have hstep : RetestTimeouts.buildDict (rs' ++ [r]) u =
          if u = r.url then some r else RetestTimeouts.buildDict rs' u := by
        simp only [RetestTimeouts.buildDict, List.foldl_append, List.foldl_cons,
          List.foldl_nil]
        rfl
      rw [hstep]
      by_cases h : r.url = u
      · rw [if_pos h.symm]
        have hfil : List.filter (fun x => x.url == u) (rs' ++ [r]) =
            List.filter (fun x => x.url == u) rs' ++ [r] := by
          simp [List.filter_append, h]
        rw [hfil, List.getLast?_concat]
      · rw [if_neg (fun hu => h hu.symm)]
        have hfil : List.filter (fun x => x.url == u) (rs' ++ [r]) =
            List.filter (fun x => x.url == u) rs' := by
          simp [List.filter_append, h]
        rw [hfil, ih]

/-- C10: retest results are keyed by URL in a dictionary, so a URL
occurring in several Timeout rows keeps at most one retest result (the
last one completed), and the merge overwrites every row bearing that
URL with that same single result. -/
theorem retest_dict_last_result_wins (rs : List UrlChecker.Record4) (u : String)
    (v : UrlChecker.Record4) (row₁ row₂ : RetestTimeouts.CsvRow) :
    RetestTimeouts.buildDict rs u = (rs.filter (fun r => r.url == u)).getLast? ∧
    (RetestTimeouts.buildDict rs u = some v → row₁.url = u → row₂.url = u →
      RetestTimeouts.updateRow (RetestTimeouts.buildDict rs) row₁ =
        ⟨row₁.url, v.status, v.httpCode.render, v.errorMessage⟩ ∧
      RetestTimeouts.updateRow (RetestTimeouts.buildDict rs) row₂ =
        ⟨row₂.url, v.status, v.httpCode.render, v.errorMessage⟩) := by
  refine ⟨buildDict_eq_getLast u rs, ?_⟩
  intro hv h₁ h₂
  constructor
  · unfold RetestTimeouts.updateRow
    rw [h₁, hv]
  · unfold RetestTimeouts.updateRow
    rw [h₂, hv]

/-- Witness for C10: two completed results for the same URL - the
later one is kept and applied identically to two rows with that URL. -/
theorem retest_dict_last_result_wins_witness :
    RetestTimeouts.buildDict
        [⟨"a.com", "Inactive", .str "Timeout", "m"⟩, ⟨"a.com", "Active", .num 200, ""⟩]
        "a.com" =
      some ⟨"a.com", "Active", .num 200, ""⟩ ∧
    RetestTimeouts.updateRow
        (RetestTimeouts.buildDict
          [⟨"a.com", "Inactive", .str "Timeout", "m"⟩, ⟨"a.com", "Active", .num 200, ""⟩])
        ⟨"a.com", "Error", "Timeout", "x"⟩ =
      ⟨"a.com", "Active", "200", ""⟩ ∧
    RetestTimeouts.updateRow
        (RetestTimeouts.buildDict
          [⟨"a.com", "Inactive", .str "Timeout", "m"⟩, ⟨"a.com", "Active", .num 200, ""⟩])
        ⟨"a.com", "Other", "Timeout", "y"⟩ =
      ⟨"a.com", "Active", "200", ""⟩ := by
  have h := (retest_dict_last_result_wins
    [⟨"a.com", "Inactive", .str "Timeout", "m"⟩, ⟨"a.com", "Active", .num 200, ""⟩]
    "a.com" ⟨"a.com", "Active", .num 200, ""⟩
    ⟨"a.com", "Error", "Timeout", "x"⟩ ⟨"a.com", "Other", "Timeout", "y"⟩).2
    (by decide) rfl rfl
  exact ⟨by decide, h.1, h.2⟩
